import Mathlib

/-!
Shallow embedding of the GPU graph lifecycle support code
(`xla/stream_executor/gpu/gpu_graph.cc`): process-wide allocation
counters for executable graph instances, the launch/update operations of
an owned executable graph, stream capture, and instantiation.

Modelling conventions:

* The `std::atomic<size_t>` counters are modelled as 64-bit naturals:
  all counter arithmetic is taken modulo `2 ^ 64` (`wordSize`), matching
  the wraparound of `fetch_add`/`fetch_sub` on `size_t`.  The claims are
  about sequential traces, so the relaxed atomics are modelled as plain
  state updates (the spec notes that orderings between counter updates
  are irrelevant, only final values matter).
* `tsl::Status` is a status code plus a diagnostic message;
  `tsl::StatusOr<T>` is `Except Status T`.  `tsl::errors::Internal`
  builds a status with the `internal` code.
* The `VLOG` logging macro is defined in `tsl/platform/logging.h`, which
  is not among the sources.  Modelled from the spec: logging is an
  external sink with no behavioural effect, so `VLOG` is modelled as
  evaluating its stream operands and discarding the text.  The counter
  side effects that the source embeds in log statements
  (`num_updates_++` in `Update`, `++num_launches_` in `Launch`,
  `NotifyGraphExecDestroyed()` in the destructor) therefore always
  execute.
* Device driver calls (`GpuDriver::...`) are external collaborators:
  each driver outcome is passed to the modelled operation as a
  parameter (the status it returns, and the value it produces).
* The class declarations (`gpu_graph.h`) are not among the sources.
  Modelled from the spec: an `OwnedGpuGraphExec` either owns a handle or
  is in the moved-from empty state (`exec = none`); construction records
  the assigned identity and initializes `launch_count = 0`,
  `update_count = 0`; move transfer nulls out the source.
-/

namespace GpuGraph

/-- Width modulus of the modelled `size_t` counters (64-bit platform). -/
def wordSize : Nat := 2 ^ 64

/-- Status codes distinguished by the model: `ok`, the `Internal` code
produced by `tsl::errors::Internal`, and arbitrary other driver error
codes. -/
inductive StatusCode where
  | ok
  | internal
  | other (n : Nat)
deriving DecidableEq

/-- Modelled `tsl::Status`: a code plus a diagnostic message. -/
structure Status where
  code : StatusCode
  msg : String
deriving DecidableEq

/-- Modelled `tsl::Status::ok()`. -/
def Status.isOk : Status → Bool
  | ⟨.ok, _⟩ => true
  | _ => false

/-- Modelled `tsl::OkStatus()`. -/
def okStatus : Status := ⟨.ok, ""⟩

/-- Modelled `tsl::errors::Internal` with the concatenated message. -/
def internalError (m : String) : Status := ⟨.internal, m⟩

/-- Modelled `OwnedGpuGraph`: exclusively owned captured graph handle
(handles are opaque; modelled as naturals). -/
structure OwnedGpuGraph where
  handle : Nat
deriving DecidableEq

/-- Modelled `OwnedGpuGraphExec`.  `exec = none` is the moved-from empty
state (`*this` converts to false).  The identity and the two counters
are the fields `id_`, `num_launches_`, `num_updates_` declared in
`gpu_graph.h` (not among the sources); modelled from the spec as
natural-number counters starting at zero. -/
structure OwnedGpuGraphExec where
  id : Nat
  exec : Option Nat
  num_launches : Nat
  num_updates : Nat
deriving DecidableEq

/-- Process-wide allocation counters
(`GpuGraphSupport::allocated_gpu_graph_execs_` and
`GpuGraphSupport::alive_gpu_graph_execs_`), both zero-initialized. -/
structure GpuGraphSupport where
  allocated : Nat
  alive : Nat
deriving DecidableEq

/-- `GpuGraphSupport::NotifyGraphExecCreated`: increments `alive`,
then increments `allocated` and returns its previous value
(`fetch_add` returns the pre-increment value). -/
def NotifyGraphExecCreated (s : GpuGraphSupport) : GpuGraphSupport × Nat :=
  (⟨(s.allocated + 1) % wordSize, (s.alive + 1) % wordSize⟩, s.allocated)

/-- `GpuGraphSupport::NotifyGraphExecDestroyed`: decrements `alive`
(`size_t` arithmetic, so decrement is addition of `wordSize - 1` mod
`wordSize`) and returns the post-decrement value. -/
def NotifyGraphExecDestroyed (s : GpuGraphSupport) : GpuGraphSupport × Nat :=
  (⟨s.allocated, (s.alive + (wordSize - 1)) % wordSize⟩,
   (s.alive + (wordSize - 1)) % wordSize)

/-- Modelled `GpuDriver::GraphExecUpdateResult` (declared in
`gpu_driver.h`, not among the sources; modelled from the spec, which
distinguishes success, topology mismatch requiring re-instantiation,
and other failures). -/
inductive GraphExecUpdateResult where
  | kSuccess
  | kTopologyChanged
  | kError
deriving DecidableEq

/-- `OwnedGpuGraphExec::Update`: increments `num_updates_` (inside the
`VLOG(3)` statement) and zeroes `num_launches_`, then calls
`GpuDriver::GraphExecUpdate`; if that call returns a non-ok status or a
result other than `kSuccess`, returns an `Internal` error whose message
appends the driver status message, otherwise `OkStatus`.  The driver
outcome is the pair `st` (the returned status) and `result` (the
reported update result).  The consumed `OwnedGpuGraph` argument does not
affect the modelled state and is omitted. -/
def OwnedGpuGraphExec.Update (e : OwnedGpuGraphExec) (st : Status)
    (result : GraphExecUpdateResult) : OwnedGpuGraphExec × Status :=
  let e' : OwnedGpuGraphExec :=
    ⟨e.id, e.exec, 0, e.num_updates + 1⟩
  if st.isOk = false ∨ result ≠ GraphExecUpdateResult.kSuccess then
    (e', internalError ("Failed to update gpu graph: " ++ st.msg))
  else
    (e', okStatus)

/-- `OwnedGpuGraphExec::Launch`: increments `num_launches_` (inside the
`VLOG(3)` statement, before the driver call) and returns the status of
`GpuDriver::GraphLaunch` verbatim (`launchSt`). -/
def OwnedGpuGraphExec.Launch (e : OwnedGpuGraphExec) (launchSt : Status) :
    OwnedGpuGraphExec × Status :=
  (⟨e.id, e.exec, e.num_launches + 1, e.num_updates⟩, launchSt)

/-- `OwnedGpuGraphExec::~OwnedGpuGraphExec`: if the instance is
non-empty (`*this` is true), calls `NotifyGraphExecDestroyed`; the
moved-from empty state does nothing.  The returned boolean records
whether the owned device resource is released (the base RAII wrapper,
declared in the header, frees the handle exactly when it is non-null;
modelled from the spec). -/
def destroyExec (s : GpuGraphSupport) (e : OwnedGpuGraphExec) :
    GpuGraphSupport × Bool :=
  if e.exec.isSome then ((NotifyGraphExecDestroyed s).1, true)
  else (s, false)

/-- Modelled from the spec: move transfer for `OwnedGpuGraphExec` (the
move constructor is declared in `gpu_graph.h`, not among the sources).
The target takes over the handle and counters; the source is left in
the empty moved-from state. -/
def moveExec (e : OwnedGpuGraphExec) : OwnedGpuGraphExec × OwnedGpuGraphExec :=
  (e, ⟨e.id, none, e.num_launches, e.num_updates⟩)

/-- `InstantiateGpuGraph`: calls `GpuDriver::GraphInstantiate` (outcome
`instSt`; on success the driver writes the fresh exec handle `h`).  On
driver failure the error is returned and the counters are untouched; on
success `NotifyGraphExecCreated` assigns a fresh identity and the new
owned executable starts with both counters at zero. -/
def InstantiateGpuGraph (s : GpuGraphSupport) (instSt : Status) (h : Nat) :
    GpuGraphSupport × Except Status OwnedGpuGraphExec :=
  if instSt.isOk = false then (s, .error instSt)
  else
    let c := NotifyGraphExecCreated s
    (c.1, .ok ⟨c.2, some h, 0, 0⟩)

/-- Modelled capture-relevant stream state: whether the stream is in
capture mode. -/
structure CaptureStream where
  capturing : Bool
deriving DecidableEq

/-- Driver outcomes for one `CaptureGpuGraph` call: the statuses of
`StreamBeginCapture` and `StreamEndCapture`, and the graph handle the
driver writes on a successful end of capture. -/
structure CaptureDriver where
  beginSt : Status
  endSt : Status
  graph : Nat
deriving DecidableEq

/-- `CaptureGpuGraph`: begins thread-local capture (propagating a begin
failure), invokes the capture body (result `captured`), always ends
capture before checking `captured` (propagating an end failure), and
only then surfaces a body failure as an `Internal` error; on success
returns the captured graph.  A successful `StreamEndCapture` leaves the
stream out of capture mode; a failed one is modelled as leaving the
stream state unchanged.  The optional debug dot-file dump block only
logs (all its failures are ignored or merely warned about) and cannot
change the returned value or the stream state, so it is omitted. -/
def CaptureGpuGraph (drv : CaptureDriver) (stream : CaptureStream)
    (captured : Status) : CaptureStream × Except Status OwnedGpuGraph :=
  if drv.beginSt.isOk = false then (stream, .error drv.beginSt)
  else
    let inCapture : CaptureStream := ⟨true⟩
    if drv.endSt.isOk = false then (inCapture, .error drv.endSt)
    else
      let ended : CaptureStream := ⟨false⟩
      if captured.isOk = false then
        (ended,
         .error (internalError ("failed to capture gpu graph: " ++ captured.msg)))
      else
        (ended, .ok ⟨drv.graph⟩)

/-! Theorems about the update and launch operations. -/

/-- C2: `Update` always resets the launch count to 0 and increments the
update count by exactly 1, regardless of the previous launch count and
regardless of whether the call succeeds or fails (the driver outcome
`st`, `result` is arbitrary). -/
theorem update_resets_launches_increments_updates
    (e : OwnedGpuGraphExec) (st : Status) (r : GraphExecUpdateResult) :
    (e.Update st r).1.num_launches = 0 ∧
    (e.Update st r).1.num_updates = e.num_updates + 1 := by
  unfold OwnedGpuGraphExec.Update
  split <;> exact ⟨rfl, rfl⟩

/-- C3: every `Launch` increments the launch count by exactly one, and
on a freshly instantiated executable (launch count 0) one launch leaves
the count at 1 while three consecutive launches leave it at 3. -/
theorem launch_increments_launch_count
    (e e0 : OwnedGpuGraphExec) (st s1 s2 s3 : Status) :
    (e.Launch st).1.num_launches = e.num_launches + 1 ∧
    (e0.num_launches = 0 →
      (e0.Launch s1).1.num_launches = 1 ∧
      ((((e0.Launch s1).1.Launch s2).1.Launch s3).1.num_launches = 3)) := by
  refine ⟨rfl, fun h0 => ?_⟩
  unfold OwnedGpuGraphExec.Launch
  simp [h0]

/-- Witness for C3 at a freshly instantiated executable. -/
theorem launch_increments_launch_count_witness :
    ((⟨0, some 1, 0, 0⟩ : OwnedGpuGraphExec).Launch okStatus).1.num_launches = 1 ∧
    (((((⟨0, some 1, 0, 0⟩ : OwnedGpuGraphExec).Launch okStatus).1.Launch
        okStatus).1.Launch okStatus).1.num_launches = 3) :=
  (launch_increments_launch_count ⟨0, some 1, 0, 0⟩ ⟨0, some 1, 0, 0⟩
    okStatus okStatus okStatus okStatus).2 rfl

/-- C5: `Update` returns an error if and only if the driver update call
returns a non-ok status or reports a result other than `kSuccess`; in
that case the error is the `Internal` error whose message appends the
driver's diagnostic text, and otherwise `Update` returns `OkStatus`. -/
theorem update_error_iff_driver_failure
    (e : OwnedGpuGraphExec) (st : Status) (r : GraphExecUpdateResult) :
    ((e.Update st r).2.isOk = false ↔
      (st.isOk = false ∨ r ≠ GraphExecUpdateResult.kSuccess)) ∧
    (st.isOk = false ∨ r ≠ GraphExecUpdateResult.kSuccess →
      (e.Update st r).2 =
        internalError ("Failed to update gpu graph: " ++ st.msg)) ∧
    (st.isOk = true ∧ r = GraphExecUpdateResult.kSuccess →
      (e.Update st r).2 = okStatus) := by
  unfold OwnedGpuGraphExec.Update
  by_cases hc : st.isOk = false ∨ r ≠ GraphExecUpdateResult.kSuccess
  · rw [if_pos hc]
    refine ⟨⟨fun _ => hc, fun _ => rfl⟩, fun _ => rfl, fun hok => ?_⟩
    exact absurd hc (by simp [hok.1, hok.2])
  · rw [if_neg hc]
    refine ⟨⟨fun hko => absurd hko ?_, fun h => absurd h hc⟩,
      fun h => absurd h hc, fun _ => rfl⟩
    simp [okStatus, Status.isOk]

/-- Witness for C5 at a failing driver outcome and at a successful one. -/
theorem update_error_iff_driver_failure_witness :
    ((⟨0, some 1, 5, 2⟩ : OwnedGpuGraphExec).Update
       ⟨.other 7, "cuda error"⟩ .kError).2 =
      internalError "Failed to update gpu graph: cuda error" ∧
    ((⟨0, some 1, 5, 2⟩ : OwnedGpuGraphExec).Update okStatus .kSuccess).2 =
      okStatus :=
  ⟨(update_error_iff_driver_failure ⟨0, some 1, 5, 2⟩
      ⟨.other 7, "cuda error"⟩ .kError).2.1 (Or.inl rfl),
   (update_error_iff_driver_failure ⟨0, some 1, 5, 2⟩
      okStatus .kSuccess).2.2 ⟨rfl, rfl⟩⟩

/-- C9: `Update` is not atomic with respect to failure: the launch-count
reset and update-count increment happen before the driver call, so even
when `Update` returns an error the counters are already mutated, and the
resulting instance state is independent of the driver outcome. -/
theorem update_counters_updated_even_on_error
    (e : OwnedGpuGraphExec) (st st' : Status) (r r' : GraphExecUpdateResult)
    (_herr : (e.Update st r).2.isOk = false) :
    (e.Update st r).1.num_launches = 0 ∧
    (e.Update st r).1.num_updates = e.num_updates + 1 ∧
    (e.Update st r).1 = (e.Update st' r').1 := by
  refine ⟨(update_resets_launches_increments_updates e st r).1,
    (update_resets_launches_increments_updates e st r).2, ?_⟩
  unfold OwnedGpuGraphExec.Update
  split <;> split <;> rfl

/-- Witness for C9 at a concrete failing update. -/
theorem update_counters_updated_even_on_error_witness :
    (((⟨3, some 1, 4, 1⟩ : OwnedGpuGraphExec).Update
        ⟨.other 7, "boom"⟩ .kTopologyChanged).2.isOk = false) ∧
    ((⟨3, some 1, 4, 1⟩ : OwnedGpuGraphExec).Update
        ⟨.other 7, "boom"⟩ .kTopologyChanged).1.num_launches = 0 ∧
    ((⟨3, some 1, 4, 1⟩ : OwnedGpuGraphExec).Update
        ⟨.other 7, "boom"⟩ .kTopologyChanged).1.num_updates = 2 :=
  ⟨by decide,
   (update_counters_updated_even_on_error ⟨3, some 1, 4, 1⟩
      ⟨.other 7, "boom"⟩ ⟨.other 7, "boom"⟩ .kTopologyChanged
      .kTopologyChanged (by decide)).1,
   (update_counters_updated_even_on_error ⟨3, some 1, 4, 1⟩
      ⟨.other 7, "boom"⟩ ⟨.other 7, "boom"⟩ .kTopologyChanged
      .kTopologyChanged (by decide)).2.1⟩

/-! Theorems about instantiation and destruction. -/

/-- C7: if the driver's instantiate call fails, `InstantiateGpuGraph`
returns that error and the counter state is unchanged: no identity is
consumed and neither `allocated` nor `alive` moves. -/
theorem instantiate_error_leaves_state_unchanged
    (s : GpuGraphSupport) (st : Status) (h : Nat)
    (hfail : st.isOk = false) :
    InstantiateGpuGraph s st h = (s, .error st) := by
  unfold InstantiateGpuGraph
  rw [if_pos hfail]

/-- Witness for C7 at a concrete failing driver instantiate call. -/
theorem instantiate_error_leaves_state_unchanged_witness :
    InstantiateGpuGraph ⟨4, 2⟩ ⟨.other 5, "out of memory"⟩ 9 =
      (⟨4, 2⟩, .error ⟨.other 5, "out of memory"⟩) :=
  instantiate_error_leaves_state_unchanged ⟨4, 2⟩
    ⟨.other 5, "out of memory"⟩ 9 rfl

/-- C8: destroying the moved-from (empty) half of a moved pair leaves
the counters unchanged and releases no device resource; destroying the
non-empty target decrements `alive` by one and releases the resource,
so destroying both halves after a move decrements `alive` exactly
once. -/
theorem moved_from_destructor_preserves_alive
    (s : GpuGraphSupport) (e : OwnedGpuGraphExec)
    (hsome : e.exec.isSome = true)
    (h1 : 0 < s.alive) (h2 : s.alive < wordSize) :
    destroyExec s (moveExec e).2 = (s, false) ∧
    (destroyExec s (moveExec e).1).1.alive = s.alive - 1 ∧
    (destroyExec s (moveExec e).1).2 = true ∧
    (destroyExec (destroyExec s (moveExec e).2).1 (moveExec e).1).1.alive =
      s.alive - 1 := by
  have hdec : (s.alive + (wordSize - 1)) % wordSize = s.alive - 1 := by
    have hw : 0 < wordSize := by
      unfold wordSize
      positivity
    have he : s.alive + (wordSize - 1) = (s.alive - 1) + wordSize := by omega
    rw [he, Nat.add_mod_right]
    exact Nat.mod_eq_of_lt (by omega)
  have hempty : destroyExec s (moveExec e).2 = (s, false) := by
    unfold destroyExec moveExec
    simp
  refine ⟨hempty, ?_, ?_, ?_⟩
  · unfold destroyExec moveExec NotifyGraphExecDestroyed
    rw [if_pos hsome]
    exact hdec
  · unfold destroyExec moveExec
    rw [if_pos hsome]
  · rw [hempty]
    unfold destroyExec moveExec NotifyGraphExecDestroyed
    rw [if_pos hsome]
    exact hdec

/-- Witness for C8 at concrete counters and a concrete live instance. -/
theorem moved_from_destructor_preserves_alive_witness :
    destroyExec ⟨5, 3⟩ (moveExec ⟨0, some 1, 0, 0⟩).2 = (⟨5, 3⟩, false) ∧
    (destroyExec (destroyExec ⟨5, 3⟩ (moveExec ⟨0, some 1, 0, 0⟩).2).1
      (moveExec ⟨0, some 1, 0, 0⟩).1).1.alive = 2 :=
  ⟨(moved_from_destructor_preserves_alive ⟨5, 3⟩ ⟨0, some 1, 0, 0⟩ rfl
      (by decide) (by decide)).1,
   (moved_from_destructor_preserves_alive ⟨5, 3⟩ ⟨0, some 1, 0, 0⟩ rfl
      (by decide) (by decide)).2.2.2⟩

/-! Theorems about stream capture. -/

/-- C10: if ending the stream capture fails, that end-capture driver
error is returned directly (the result equals the end-capture status
verbatim, for every capture body, so a failing body's status is
discarded). -/
theorem end_capture_failure_takes_precedence
    (drv : CaptureDriver) (stream : CaptureStream) (captured : Status)
    (hbegin : drv.beginSt.isOk = true) (hend : drv.endSt.isOk = false) :
    (CaptureGpuGraph drv stream captured).2 = .error drv.endSt := by
  unfold CaptureGpuGraph
  rw [if_neg (by simp [hbegin]), if_pos hend]

/-- Witness for C10: a failing body together with a failing end capture;
the returned error is the end-capture error. -/
theorem end_capture_failure_takes_precedence_witness :
    (CaptureGpuGraph ⟨okStatus, ⟨.other 1, "end capture failed"⟩, 7⟩
        ⟨false⟩ ⟨.other 2, "body detail"⟩).2 =
      .error ⟨.other 1, "end capture failed"⟩ :=
  end_capture_failure_takes_precedence
    ⟨okStatus, ⟨.other 1, "end capture failed"⟩, 7⟩ ⟨false⟩
    ⟨.other 2, "body detail"⟩ rfl rfl

/-- C4 counterexample: a capture body that fails while ending the stream
capture also fails.  The operation then returns the end-capture driver
error, whose code is not `internal` and whose message is the driver's
end-capture text, not an internal error carrying the body's failure
detail — refuting the claim in the form quantified over every failing
body. -/
theorem capture_body_failure_not_always_internal :
    (⟨.other 2, "body detail"⟩ : Status).isOk = false ∧
    (CaptureGpuGraph ⟨okStatus, ⟨.other 1, "end capture failed"⟩, 7⟩
        ⟨false⟩ ⟨.other 2, "body detail"⟩).2 =
      .error ⟨.other 1, "end capture failed"⟩ ∧
    (⟨.other 1, "end capture failed"⟩ : Status).code ≠ StatusCode.internal :=
  ⟨rfl, rfl, by decide⟩

/-- C4 (amended): for a capture whose begin- and end-capture driver
calls succeed, a failing body still has capture ended first (the stream
is out of capture mode afterwards) and only then is the failure
surfaced as an `Internal` error carrying the body's failure detail; no
captured graph is returned. -/
theorem capture_body_failure_ends_capture_then_internal
    (drv : CaptureDriver) (stream : CaptureStream) (captured : Status)
    (hbegin : drv.beginSt.isOk = true) (hend : drv.endSt.isOk = true)
    (hbody : captured.isOk = false) :
    (CaptureGpuGraph drv stream captured).1.capturing = false ∧
    (CaptureGpuGraph drv stream captured).2 =
      .error (internalError ("failed to capture gpu graph: " ++ captured.msg)) ∧
    ∀ g : OwnedGpuGraph, (CaptureGpuGraph drv stream captured).2 ≠ .ok g := by
  have hred : CaptureGpuGraph drv stream captured =
      (⟨false⟩,
       .error (internalError ("failed to capture gpu graph: " ++ captured.msg))) := by
    unfold CaptureGpuGraph
    rw [if_neg (by simp [hbegin]), if_neg (by simp [hend]), if_pos hbody]
  rw [hred]
  exact ⟨rfl, rfl, fun g h => Except.noConfusion h⟩

/-- Witness for (amended) C4 at a concrete failing body with a
well-behaved driver. -/
theorem capture_body_failure_ends_capture_then_internal_witness :
    (CaptureGpuGraph ⟨okStatus, okStatus, 7⟩ ⟨false⟩
        ⟨.other 2, "body detail"⟩).1.capturing = false ∧
    (CaptureGpuGraph ⟨okStatus, okStatus, 7⟩ ⟨false⟩
        ⟨.other 2, "body detail"⟩).2 =
      .error (internalError "failed to capture gpu graph: body detail") :=
  ⟨(capture_body_failure_ends_capture_then_internal ⟨okStatus, okStatus, 7⟩
      ⟨false⟩ ⟨.other 2, "body detail"⟩ rfl rfl rfl).1,
   (capture_body_failure_ends_capture_then_internal ⟨okStatus, okStatus, 7⟩
      ⟨false⟩ ⟨.other 2, "body detail"⟩ rfl rfl rfl).2.1⟩

/-! Trace semantics for the allocation counters.

A trace is a sequence of successful instantiations and destructions of
non-empty executable instances — exactly the events that touch the two
process-wide counters in the source (`NotifyGraphExecCreated` on the
success path of `InstantiateGpuGraph`, `NotifyGraphExecDestroyed` in
the destructor of a non-empty `OwnedGpuGraphExec`). -/

/-- Counter-relevant lifecycle events. -/
inductive Op where
  | instantiate
  | destroy
deriving DecidableEq

/-- Effect of one event on the counters, as performed by the source:
`NotifyGraphExecCreated` for a successful instantiation,
`NotifyGraphExecDestroyed` for the destruction of a non-empty
instance. -/
def stepOp (s : GpuGraphSupport) : Op → GpuGraphSupport
  | .instantiate => (NotifyGraphExecCreated s).1
  | .destroy => (NotifyGraphExecDestroyed s).1

/-- Counters after running a trace from state `s`. -/
def runOps (s : GpuGraphSupport) (t : List Op) : GpuGraphSupport :=
  t.foldl stepOp s

/-- Counters after running a trace from the zero-initialized state. -/
def countersAfter (t : List Op) : GpuGraphSupport := runOps ⟨0, 0⟩ t

/-- Number of instantiations in a trace. -/
def countInst : List Op → Nat
  | [] => 0
  | .instantiate :: t => countInst t + 1
  | .destroy :: t => countInst t

/-- Number of destructions in a trace. -/
def countDest : List Op → Nat
  | [] => 0
  | .instantiate :: t => countDest t
  | .destroy :: t => countDest t + 1

/-- A trace is valid from `live` current instances when every destroy
event destroys one of the currently live (instantiated, not yet
destroyed) instances. -/
def validFrom : Nat → List Op → Bool
  | _, [] => true
  | live, .instantiate :: t => validFrom (live + 1) t
  | live, .destroy :: t => decide (0 < live) && validFrom (live - 1) t

/-- One step of the identity-collecting run: the counter effect of the
event together with the identity appended by `NotifyGraphExecCreated`
on an instantiation (the identity of a new executable is the
pre-increment value of `allocated`). -/
def runIdsStep (p : GpuGraphSupport × List Nat) (op : Op) :
    GpuGraphSupport × List Nat :=
  match op with
  | .instantiate =>
      ((NotifyGraphExecCreated p.1).1, p.2 ++ [(NotifyGraphExecCreated p.1).2])
  | .destroy => ((NotifyGraphExecDestroyed p.1).1, p.2)

/-- Counters state after running a trace, plus the list of identities
handed out by `NotifyGraphExecCreated` along the way, in order. -/
def runIds (s : GpuGraphSupport) (t : List Op) : GpuGraphSupport × List Nat :=
  t.foldl runIdsStep (s, [])

/-- Identities assigned while running a trace from the zero state. -/
def idsAfter (t : List Op) : List Nat := (runIds ⟨0, 0⟩ t).2

theorem runIdsStep_inst (s : GpuGraphSupport) (acc : List Nat) :
    runIdsStep (s, acc) Op.instantiate =
      ((NotifyGraphExecCreated s).1,
       acc ++ [(NotifyGraphExecCreated s).2]) := rfl

theorem runIdsStep_dest (s : GpuGraphSupport) (acc : List Nat) :
    runIdsStep (s, acc) Op.destroy = ((NotifyGraphExecDestroyed s).1, acc) := rfl

theorem runIds_acc (t : List Op) : ∀ (s : GpuGraphSupport) (acc : List Nat),
    (t.foldl runIdsStep (s, acc)).2 = acc ++ (t.foldl runIdsStep (s, [])).2 := by
  induction t with
  | nil =>
    intro s acc
    simp
  | cons op t ih =>
    intro s acc
    cases op with
    | instantiate =>
      rw [List.foldl_cons, List.foldl_cons, runIdsStep_inst, runIdsStep_inst,
        List.nil_append,
        ih (NotifyGraphExecCreated s).1 (acc ++ [(NotifyGraphExecCreated s).2]),
        ih (NotifyGraphExecCreated s).1 [(NotifyGraphExecCreated s).2],
        List.append_assoc]
    | destroy =>
      rw [List.foldl_cons, List.foldl_cons, runIdsStep_dest, runIdsStep_dest,
        ih (NotifyGraphExecDestroyed s).1 acc]

theorem runOps_cons (s : GpuGraphSupport) (op : Op) (t : List Op) :
    runOps s (op :: t) = runOps (stepOp s op) t := rfl

theorem stepOp_inst (s : GpuGraphSupport) :
    stepOp s Op.instantiate = (NotifyGraphExecCreated s).1 := rfl

theorem stepOp_dest (s : GpuGraphSupport) :
    stepOp s Op.destroy = (NotifyGraphExecDestroyed s).1 := rfl

theorem runIds_fst_aux (t : List Op) :
    ∀ (s : GpuGraphSupport) (acc : List Nat),
    (t.foldl runIdsStep (s, acc)).1 = runOps s t := by
  induction t with
  | nil => intro s acc; rfl
  | cons op t ih =>
    intro s acc
    cases op with
    | instantiate =>
      rw [List.foldl_cons, runIdsStep_inst,
        ih (NotifyGraphExecCreated s).1 (acc ++ [(NotifyGraphExecCreated s).2]),
        runOps_cons, stepOp_inst]
    | destroy =>
      rw [List.foldl_cons, runIdsStep_dest,
        ih (NotifyGraphExecDestroyed s).1 acc, runOps_cons, stepOp_dest]

theorem runIds_fst (t : List Op) (s : GpuGraphSupport) :
    (runIds s t).1 = runOps s t := runIds_fst_aux t s []

/-- Unfolding one instantiation at the head of an identity run. -/
theorem runIds_cons_inst (s : GpuGraphSupport) (t : List Op) :
    (runIds s (Op.instantiate :: t)).2 =
      (NotifyGraphExecCreated s).2 ::
        (runIds (NotifyGraphExecCreated s).1 t).2 := by
  unfold runIds
  rw [List.foldl_cons, runIdsStep_inst, List.nil_append,
    runIds_acc t (NotifyGraphExecCreated s).1 [(NotifyGraphExecCreated s).2]]
  rfl

/-- Unfolding one destruction at the head of an identity run. -/
theorem runIds_cons_dest (s : GpuGraphSupport) (t : List Op) :
    (runIds s (Op.destroy :: t)).2 =
      (runIds (NotifyGraphExecDestroyed s).1 t).2 := by
  unfold runIds
  rw [List.foldl_cons, runIdsStep_dest]

theorem runIds_append_snd (p q : List Op) (s : GpuGraphSupport) :
    (runIds s (p ++ q)).2 = (runIds s p).2 ++ (runIds (runOps s p) q).2 := by
  unfold runIds
  rw [List.foldl_append]
  have hp : p.foldl runIdsStep (s, []) =
      (runOps s p, (p.foldl runIdsStep (s, [])).2) := by
    rw [← runIds_fst_aux p s []]
  rw [hp, runIds_acc q (runOps s p) (p.foldl runIdsStep (s, [])).2]

theorem wordSize_pos : 0 < wordSize := by
  unfold wordSize
  positivity

theorem countInst_append (p q : List Op) :
    countInst (p ++ q) = countInst p + countInst q := by
  induction p with
  | nil => simp [countInst]
  | cons op t ih => cases op <;> simp [countInst, ih, Nat.add_right_comm]

theorem validFrom_append (p q : List Op) :
    ∀ l, validFrom l (p ++ q) = true → validFrom l p = true := by
  induction p with
  | nil => intro l _; rfl
  | cons op t ih =>
    intro l hv
    cases op with
    | instantiate => exact ih (l + 1) hv
    | destroy =>
      rw [List.cons_append] at hv
      unfold validFrom at hv ⊢
      rw [Bool.and_eq_true] at hv ⊢
      exact ⟨hv.1, ih (l - 1) hv.2⟩

/-- Closed form for the counters along a valid, non-overflowing trace:
starting from `allocated = a`, `alive = l` with `l` live instances and
room for all instantiations below the `size_t` modulus, the final
counters are the start plus the instantiation count, minus the destroy
count on the `alive` side; and the destroy count never exceeds the
available instances. -/
theorem runOps_spec (t : List Op) : ∀ a l : Nat,
    validFrom l t = true → a + countInst t < wordSize → l ≤ a →
    runOps ⟨a, l⟩ t =
      ⟨a + countInst t, l + countInst t - countDest t⟩ ∧
    countDest t ≤ l + countInst t := by
  induction t with
  | nil =>
    intro a l _ _ _
    simp [runOps, countInst, countDest]
  | cons op t ih =>
    intro a l hv hb hla
    cases op with
    | instantiate =>
      rw [show countInst (Op.instantiate :: t) = countInst t + 1 from rfl] at hb ⊢
      rw [show countDest (Op.instantiate :: t) = countDest t from rfl]
      have h1 : (a + 1) % wordSize = a + 1 := Nat.mod_eq_of_lt (by omega)
      have h2 : (l + 1) % wordSize = l + 1 := Nat.mod_eq_of_lt (by omega)
      have hstep : runOps ⟨a, l⟩ (Op.instantiate :: t) =
          runOps ⟨a + 1, l + 1⟩ t := by
        unfold runOps
        rw [List.foldl_cons]
        unfold stepOp NotifyGraphExecCreated
        rw [h1, h2]
      obtain ⟨heq, hle⟩ := ih (a + 1) (l + 1) hv (by omega) (by omega)
      rw [hstep, heq]
      refine ⟨?_, by omega⟩
      rw [GpuGraphSupport.mk.injEq]
      omega
    | destroy =>
      unfold validFrom at hv
      rw [Bool.and_eq_true, decide_eq_true_iff] at hv
      obtain ⟨hl, hv'⟩ := hv
      rw [show countInst (Op.destroy :: t) = countInst t from rfl] at hb ⊢
      rw [show countDest (Op.destroy :: t) = countDest t + 1 from rfl]
      have hlw : l < wordSize := by omega
      have hdec : (l + (wordSize - 1)) % wordSize = l - 1 := by
        have he : l + (wordSize - 1) = (l - 1) + wordSize := by
          have := wordSize_pos
          omega
        rw [he, Nat.add_mod_right]
        exact Nat.mod_eq_of_lt (by omega)
      have hstep : runOps ⟨a, l⟩ (Op.destroy :: t) =
          runOps ⟨a, l - 1⟩ t := by
        unfold runOps
        rw [List.foldl_cons]
        unfold stepOp NotifyGraphExecDestroyed
        rw [hdec]
      obtain ⟨heq, hle⟩ := ih a (l - 1) hv' (by omega) (by omega)
      rw [hstep, heq]
      refine ⟨?_, by omega⟩
      rw [GpuGraphSupport.mk.injEq]
      omega

/-- C1 (amended): for every valid trace of successful instantiations
and destructions of non-empty instances in which fewer than `2 ^ 64`
instantiations occur, `allocated` equals the total number of
instantiations ever performed, `alive` equals the number of
instantiated-but-not-yet-destroyed instances, `alive ≤ allocated`, and
along every prefix of the trace the same holds with `allocated`
non-decreasing (both counters are naturals, hence non-negative).
Without the `2 ^ 64` bound the `size_t` counters wrap around, refuting
the unrestricted claim (see the counterexample theorem). -/
theorem counters_track_instantiations (t : List Op)
    (hv : validFrom 0 t = true) (hb : countInst t < wordSize) :
    (countersAfter t).allocated = countInst t ∧
    (countersAfter t).alive = countInst t - countDest t ∧
    (countersAfter t).alive ≤ (countersAfter t).allocated ∧
    ∀ p q, t = p ++ q →
      (countersAfter p).allocated = countInst p ∧
      (countersAfter p).alive ≤ (countersAfter p).allocated ∧
      (countersAfter p).allocated ≤ (countersAfter t).allocated := by
  obtain ⟨heq, _⟩ := runOps_spec t 0 0 hv (by omega) (Nat.le_refl 0)
  have hall : (countersAfter t).allocated = countInst t := by
    rw [show countersAfter t = runOps ⟨0, 0⟩ t from rfl, heq]
    simp
  have halv : (countersAfter t).alive = countInst t - countDest t := by
    rw [show countersAfter t = runOps ⟨0, 0⟩ t from rfl, heq]
    simp
  refine ⟨hall, halv, by rw [hall, halv]; omega, ?_⟩
  intro p q hpq
  have hvp : validFrom 0 p = true := validFrom_append p q 0 (hpq ▸ hv)
  have hcp : countInst p ≤ countInst t := by
    rw [hpq, countInst_append]
    omega
  obtain ⟨heqp, _⟩ := runOps_spec p 0 0 hvp (by omega) (Nat.le_refl 0)
  have hallp : (countersAfter p).allocated = countInst p := by
    rw [show countersAfter p = runOps ⟨0, 0⟩ p from rfl, heqp]
    simp
  have halvp : (countersAfter p).alive = countInst p - countDest p := by
    rw [show countersAfter p = runOps ⟨0, 0⟩ p from rfl, heqp]
    simp
  exact ⟨hallp, by rw [hallp, halvp]; omega, by rw [hallp, hall]; omega⟩

/-- Witness for (amended) C1 at a concrete valid trace: two
instantiations, one destruction, one more instantiation. -/
theorem counters_track_instantiations_witness :
    validFrom 0 [Op.instantiate, Op.instantiate, Op.destroy,
      Op.instantiate] = true ∧
    (countersAfter [Op.instantiate, Op.instantiate, Op.destroy,
      Op.instantiate]).allocated =
      countInst [Op.instantiate, Op.instantiate, Op.destroy,
        Op.instantiate] ∧
    (countersAfter [Op.instantiate, Op.instantiate, Op.destroy,
      Op.instantiate]).alive =
      countInst [Op.instantiate, Op.instantiate, Op.destroy,
        Op.instantiate] -
      countDest [Op.instantiate, Op.instantiate, Op.destroy,
        Op.instantiate] :=
  ⟨by decide,
   (counters_track_instantiations _ (by decide) (by decide)).1,
   (counters_track_instantiations _ (by decide) (by decide)).2.1⟩

/-! Wraparound of the `size_t` counters, and identity assignment. -/

theorem countInst_replicate (n : Nat) :
    countInst (List.replicate n Op.instantiate) = n := by
  induction n with
  | zero => rfl
  | succ n ih => rw [List.replicate_succ]; simp [countInst, ih]

theorem validFrom_replicate_inst (n : Nat) :
    ∀ l, validFrom l (List.replicate n Op.instantiate) = true := by
  induction n with
  | zero => intro l; rfl
  | succ n ih =>
    intro l
    rw [List.replicate_succ]
    exact ih (l + 1)

theorem runOps_replicate_inst (n : Nat) : ∀ a l : Nat,
    runOps ⟨a % wordSize, l % wordSize⟩ (List.replicate n Op.instantiate) =
      ⟨(a + n) % wordSize, (l + n) % wordSize⟩ := by
  induction n with
  | zero => intro a l; simp [runOps]
  | succ n ih =>
    intro a l
    rw [List.replicate_succ]
    have hstep :
        runOps ⟨a % wordSize, l % wordSize⟩
          (Op.instantiate :: List.replicate n Op.instantiate) =
        runOps ⟨(a % wordSize + 1) % wordSize, (l % wordSize + 1) % wordSize⟩
          (List.replicate n Op.instantiate) := rfl
    rw [hstep, Nat.mod_add_mod, Nat.mod_add_mod, ih (a + 1) (l + 1),
      show a + 1 + n = a + (n + 1) from by omega,
      show l + 1 + n = l + (n + 1) from by omega]

/-- Running `2 ^ 64` instantiations from the zero state wraps both
counters back to zero. -/
theorem runOps_word_size_insts :
    runOps ⟨0, 0⟩ (List.replicate wordSize Op.instantiate) = ⟨0, 0⟩ := by
  have h0 : (⟨0, 0⟩ : GpuGraphSupport) = ⟨0 % wordSize, 0 % wordSize⟩ := by
    simp
  rw [h0, runOps_replicate_inst wordSize 0 0, GpuGraphSupport.mk.injEq]
  constructor <;> rw [Nat.zero_add, Nat.mod_self, Nat.zero_mod]

/-- The trace refuting C1 as universally stated: `2 ^ 64` successful
instantiations and no destruction. -/
def overflowTrace : List Op := List.replicate wordSize Op.instantiate

/-- C1 counterexample: after a valid trace of `2 ^ 64` instantiations
(and no destruction), the `allocated` counter has wrapped to 0 and no
longer equals the total number of instantiations ever performed. -/
theorem counters_wrap_at_word_size :
    validFrom 0 overflowTrace = true ∧
    countInst overflowTrace = wordSize ∧
    (countersAfter overflowTrace).allocated = 0 ∧
    (countersAfter overflowTrace).allocated ≠ countInst overflowTrace := by
  have hc : countInst overflowTrace = wordSize := countInst_replicate wordSize
  have hrun : countersAfter overflowTrace = ⟨0, 0⟩ := runOps_word_size_insts
  refine ⟨validFrom_replicate_inst wordSize 0, hc, by rw [hrun], ?_⟩
  rw [hrun, hc]
  have := wordSize_pos
  simpa using by omega

/-- Identities assigned along a trace whose instantiations all fit
below the `size_t` modulus: consecutive numbers starting at the initial
`allocated` value. -/
theorem runIds_ids (t : List Op) : ∀ a l : Nat,
    a + countInst t < wordSize →
    (runIds ⟨a, l⟩ t).2 = List.range' a (countInst t) := by
  induction t with
  | nil => intro a l _; simp [runIds, countInst]
  | cons op t ih =>
    intro a l hb
    cases op with
    | instantiate =>
      rw [show countInst (Op.instantiate :: t) = countInst t + 1 from rfl] at hb
      have h1 : (a + 1) % wordSize = a + 1 := Nat.mod_eq_of_lt (by omega)
      rw [runIds_cons_inst ⟨a, l⟩ t,
        show (NotifyGraphExecCreated ⟨a, l⟩).2 = a from rfl,
        show (NotifyGraphExecCreated ⟨a, l⟩).1 =
          (⟨(a + 1) % wordSize, (l + 1) % wordSize⟩ : GpuGraphSupport) from rfl,
        h1, ih (a + 1) ((l + 1) % wordSize) (by omega),
        show countInst (Op.instantiate :: t) = countInst t + 1 from rfl,
        List.range'_succ]
    | destroy =>
      rw [runIds_cons_dest ⟨a, l⟩ t,
        show (NotifyGraphExecDestroyed ⟨a, l⟩).1 =
          (⟨a, (l + (wordSize - 1)) % wordSize⟩ : GpuGraphSupport) from rfl]
      exact ih a ((l + (wordSize - 1)) % wordSize) hb

/-- C6 (amended): along every trace with fewer than `2 ^ 64`
instantiations, the identities assigned by instantiation are exactly
`0, 1, 2, ...` in order — the running value of the `allocated` counter
— so they are strictly increasing (each new identity exceeds every
previously assigned one) and pairwise distinct; in particular no
identity is ever reused while an instance holding it is alive. -/
theorem identities_distinct_monotone (t : List Op)
    (hb : countInst t < wordSize) :
    idsAfter t = List.range (countInst t) ∧
    (idsAfter t).Pairwise (· < ·) ∧
    (idsAfter t).Nodup := by
  have heq : idsAfter t = List.range (countInst t) := by
    show (runIds ⟨0, 0⟩ t).2 = _
    rw [runIds_ids t 0 0 (by omega), ← List.range_eq_range']
  refine ⟨heq, ?_, ?_⟩
  · rw [heq]
    exact List.pairwise_lt_range _
  · rw [heq]
    exact List.nodup_range _

/-- Witness for (amended) C6: two instantiations separated by a
destruction still get the distinct, increasing identities 0 and 1. -/
theorem identities_distinct_monotone_witness :
    countInst [Op.instantiate, Op.destroy, Op.instantiate] < wordSize ∧
    idsAfter [Op.instantiate, Op.destroy, Op.instantiate] =
      List.range (countInst [Op.instantiate, Op.destroy, Op.instantiate]) :=
  ⟨by decide, (identities_distinct_monotone _ (by decide)).1⟩

/-- The trace refuting C6 as universally stated: `2 ^ 64 + 1`
instantiations with no destruction in between. -/
def reuseTrace : List Op :=
  List.replicate wordSize Op.instantiate ++ [Op.instantiate]

/-- C6 counterexample: after `2 ^ 64` instantiations the `allocated`
counter has wrapped, so the next instantiation is assigned identity 0
again even though the instance that received identity 0 was never
destroyed — the assigned identities are not pairwise distinct (and a
fortiori not strictly increasing, and reused while the holder is
alive). -/
theorem idsAfter_def (t : List Op) :
    idsAfter t = (runIds ⟨0, 0⟩ t).2 := rfl

theorem reuseTrace_def :
    reuseTrace = List.replicate wordSize Op.instantiate ++ [Op.instantiate] :=
  rfl

/-- C6 counterexample body continued: the `2 ^ 64 + 1`-st instantiation
is assigned the already-live identity 0 again. -/
theorem identities_wrap_at_word_size :
    Op.destroy ∉ reuseTrace ∧ ¬ (idsAfter reuseTrace).Nodup := by
  constructor
  · intro hmem
    rw [reuseTrace_def] at hmem
    rcases List.mem_append.mp hmem with h | h
    · exact absurd (List.eq_of_mem_replicate h) (by simp)
    · simp at h
  · have hlast :
        (runIds (⟨0, 0⟩ : GpuGraphSupport) [Op.instantiate]).2 = [0] := rfl
    have hrep : List.replicate wordSize Op.instantiate =
        Op.instantiate :: List.replicate (wordSize - 1) Op.instantiate := by
      rw [← List.replicate_succ]
      congr 1
    have hhead : ∃ u, (runIds ⟨0, 0⟩
        (List.replicate wordSize Op.instantiate)).2 = 0 :: u := by
      refine ⟨(runIds (NotifyGraphExecCreated ⟨0, 0⟩).1
        (List.replicate (wordSize - 1) Op.instantiate)).2, ?_⟩
      rw [hrep, runIds_cons_inst]
      rfl
    obtain ⟨u, hu⟩ := hhead
    intro hnd
    rw [idsAfter_def, reuseTrace_def,
      runIds_append_snd (List.replicate wordSize Op.instantiate)
        [Op.instantiate] ⟨0, 0⟩,
      runOps_word_size_insts, hlast, hu, List.cons_append,
      List.nodup_cons] at hnd
    exact hnd.1 (by simp)

end GpuGraph
